import Mathlib

/-!
Shallow embedding of the fastapi_proj todo service (src/main.py, src/database.py):
the token codec (python-jose JWT, HS256), the identity resolver
(get_current_user), the authenticator (authenticate_user), the credential
hasher contract, the todo endpoints (get/create/edit/delete), the token
endpoint (create_access_token), and the server-rendered pages
(render_todo_page, add_todo_page, edit_todo_page).

Machine time is modelled as integer seconds since the epoch; a timedelta is
an integer number of seconds (timedelta(minutes=180) = 180 * 60 seconds).
-/

namespace FastapiTodo

/-- The JWT claim set built by create_token and read back by jwt.decode:
fields "sub", "id", "role", "exp".  Each field may be absent from an
arbitrary token, hence Option. -/
structure JwtPayload where
  sub : Option String
  id : Option Int
  role : Option String
  exp : Option Int
deriving DecidableEq

/-- A token string as seen by jose.jwt: either not a well-formed JWT at all
(malformed/truncated), or a serialized payload together with an HMAC-SHA256
signature.  The signature is modelled abstractly as the pair of the payload
it was computed over and the secret it was computed with; signature
verification against (payload, secret) is equality of that pair. -/
inductive Token where
  | malformed (raw : String)
  | signed (payload : JwtPayload) (sigPayload : JwtPayload) (sigSecret : String)
deriving DecidableEq

/-- The failure modes of jose.jwt.decode (all raised as JWTError in the
source and caught together in get_current_user). -/
inductive JwtError where
  | malformedToken
  | badSignature
  | expired
deriving DecidableEq

/-- jose.jwt.encode(payload, secret, algorithm="HS256"): serializes the
payload and signs it with the secret. -/
def jwt_encode (p : JwtPayload) (secret : String) : Token :=
  Token.signed p p secret

/-- jose.jwt.decode(token, secret, algorithms=["HS256"]) evaluated at
current time now: verifies the signature, then (when an "exp" claim is
present) rejects the token when exp is in the past (jose raises
ExpiredSignatureError exactly when exp < now, zero leeway). -/
def jwt_decode (t : Token) (secret : String) (now : Int) :
    Except JwtError JwtPayload :=
  match t with
  | Token.malformed _ => Except.error JwtError.malformedToken
  | Token.signed p sp ss =>
    if sp = p ∧ ss = secret then
      match p.exp with
      | some e => if e < now then Except.error JwtError.expired else Except.ok p
      | none => Except.ok p
    else Except.error JwtError.badSignature

/-- create_token(username, user_id, role, expires_delta) from src/main.py:
builds the claim set with "sub", "id", "role" and "exp" = now +
expires_delta, and signs it with the process-wide secret. -/
def create_token (username : String) (user_id : Int) (role : String)
    (secret : String) (now : Int) (expires_delta : Int) : Token :=
  jwt_encode ⟨some username, some user_id, some role, some (now + expires_delta)⟩ secret

/-- The dict returned by get_current_user on success:
keys "username", "id", "user_role" (payload.get("role") may be None). -/
structure Identity where
  username : String
  id : Int
  user_role : Option String
deriving DecidableEq

/-- fastapi.HTTPException as raised by the handlers: a status code and a
detail string. -/
structure HTTPException where
  status_code : Nat
  detail : String
deriving DecidableEq

/-- The raw bearer-token input to get_current_user: Python None, the empty
string (also falsy under the check in the source), the literal placeholder
string "undefined", or an actual token string. -/
inductive RawToken where
  | absent
  | emptyStr
  | undefinedStr
  | token (t : Token)
deriving DecidableEq

/-- get_current_user from src/main.py: the identity resolver.  Absent,
empty, or "undefined" input returns None (modelled Except.ok none);
a JWTError from jwt.decode becomes HTTPException 401 (modelled
Except.error); a decoded payload missing "sub" or "id" returns None;
otherwise the identity dict is returned. -/
def get_current_user (token : RawToken) (secret : String) (now : Int) :
    Except HTTPException (Option Identity) :=
  match token with
  | RawToken.absent => Except.ok none
  | RawToken.emptyStr => Except.ok none
  | RawToken.undefinedStr => Except.ok none
  | RawToken.token t =>
    match jwt_decode t secret now with
    | Except.error _ =>
        Except.error ⟨401, "Could not validate credentials"⟩
    | Except.ok p =>
      match p.sub, p.id with
      | some u, some i => Except.ok (some ⟨u, i, p.role⟩)
      | some _, none => Except.ok none
      | none, _ => Except.ok none

/-- Modelled from the spec: the Credential Hasher is the third-party passlib
bcrypt CryptContext configured in src/main.py, whose implementation is not
part of this repository.  Per spec section 4.1 a stored digest is either a
well-formed salted bcrypt digest of some plaintext or malformed. -/
inductive Digest where
  | bcrypt (salt : String) (plaintext : String)
  | malformed (raw : String)
deriving DecidableEq

/-- Modelled from the spec: bcrypt_context.hash(plaintext) produces a
salted digest of the plaintext. -/
def bcrypt_hash (plaintext : String) (salt : String) : Digest :=
  Digest.bcrypt salt plaintext

/-- Modelled from the spec: bcrypt_context.verify(plaintext, digest)
recomputes and compares; a malformed stored digest yields false, never an
exception (spec section 4.1 failure contract). -/
def bcrypt_verify (plaintext : String) (d : Digest) : Bool :=
  match d with
  | Digest.bcrypt _ p => plaintext == p
  | Digest.malformed _ => false

/-- The Users table row from src/database.py. -/
structure UserRecord where
  id : Int
  email : String
  username : String
  first_name : String
  last_name : String
  password : Digest
  is_active : Bool
  role : String
  phone_number : String
deriving DecidableEq

/-- The Todos table row from src/database.py. -/
structure TodoRecord where
  id : Int
  title : String
  description : String
  priority : Int
  complete : Bool
  owner_id : Int
deriving DecidableEq

/-- The TodoRequest pydantic body from src/main.py: title, description,
priority, complete — and no owner field. -/
structure TodoRequest where
  title : String
  description : String
  priority : Int
  complete : Bool
deriving DecidableEq

/-- The three distinguishable return values of authenticate_user:
Python None (no such username), Python False (password verification
failed), or the user record itself. -/
inductive AuthResult where
  | notFound
  | badPassword
  | ok (u : UserRecord)
deriving DecidableEq

/-- authenticate_user(username, password, db) from src/main.py:
db.query(Users).filter(Users.username == username).first(), then
bcrypt_context.verify against the stored hash. -/
def authenticate_user (username password : String) (db : List UserRecord) :
    AuthResult :=
  match db.find? (fun u => u.username == username) with
  | none => AuthResult.notFound
  | some u =>
    if bcrypt_verify password u.password then AuthResult.ok u
    else AuthResult.badPassword

/-- db.query(Todos).filter(Todos.id == id).filter(Todos.owner_id ==
user.get("id")).first(): the owner-filtered single-row query used by the
todo API endpoints. -/
def queryTodoOwned (db : List TodoRecord) (id owner : Int) : Option TodoRecord :=
  db.find? (fun t => t.id == id && t.owner_id == owner)

/-- GET /todo/(id): 401 when the resolved user is None, else the
owner-filtered query; 404 when it finds nothing, the record otherwise. -/
def get_todo (user : Option Identity) (db : List TodoRecord) (id : Int) :
    Except HTTPException TodoRecord :=
  match user with
  | none => Except.error ⟨401, "Authentication failed"⟩
  | some u =>
    match queryTodoOwned db id u.id with
    | some todo => Except.ok todo
    | none => Except.error ⟨404, "Todo Not Found"⟩

/-- POST /create-todo: 401 when the resolved user is None; otherwise
inserts Todos(**todo_request.dict(), owner_id=user.get("id")), the store
assigning the fresh primary key newId. -/
def create_todo (user : Option Identity) (db : List TodoRecord) (newId : Int)
    (req : TodoRequest) : Except HTTPException (List TodoRecord) :=
  match user with
  | none => Except.error ⟨401, "Authentication failed"⟩
  | some u =>
    Except.ok (db ++ [⟨newId, req.title, req.description, req.priority, req.complete, u.id⟩])

/-- In-place mutation of the first row matched by .first(): replace the
first element satisfying p by f of it. -/
def updateFirst (db : List TodoRecord) (p : TodoRecord → Bool)
    (f : TodoRecord → TodoRecord) : List TodoRecord :=
  match db with
  | [] => []
  | t :: ts => if p t then f t :: ts else t :: updateFirst ts p f

/-- PUT /edit-todo/(id): 401 when the resolved user is None; 404 when the
owner-filtered query finds nothing; else the found row is overwritten with
the request fields. -/
def update_todo (user : Option Identity) (db : List TodoRecord) (id : Int)
    (req : TodoRequest) : Except HTTPException (List TodoRecord) :=
  match user with
  | none => Except.error ⟨401, "Authentication failed"⟩
  | some u =>
    match queryTodoOwned db id u.id with
    | none => Except.error ⟨404, "Todo Not Found"⟩
    | some _ =>
      Except.ok (updateFirst db (fun t => t.id == id && t.owner_id == u.id)
        (fun t => { t with title := req.title, description := req.description,
                           priority := req.priority, complete := req.complete }))

/-- DELETE /delete-todo/(id): 401 when the resolved user is None; 403 when
user.get("user_role") is not the literal "admin"; 404 when the
owner-filtered query finds nothing; else the owner-filtered delete runs. -/
def delete_todo (user : Option Identity) (db : List TodoRecord) (id : Int) :
    Except HTTPException (List TodoRecord) :=
  match user with
  | none => Except.error ⟨401, "Authentication failed"⟩
  | some u =>
    if u.user_role ≠ some "admin" then Except.error ⟨403, "Uh-uh"⟩
    else
      match queryTodoOwned db id u.id with
      | none => Except.error ⟨404, "Todo Not Found"⟩
      | some _ =>
        Except.ok (db.filter (fun t => !(t.id == id && t.owner_id == u.id)))

/-- The response of POST /token: on success the dict with access_token and
token_type; on failed authentication the bare string "Failed
authentication" (returned, not raised). -/
inductive TokenResponse where
  | success (access_token : Token) (token_type : String)
  | failureString (s : String)
deriving DecidableEq

/-- POST /token (create_access_token): authenticate_user, then
the check if not user — Python None and False are both falsy — return the plain
string; otherwise create_token with the hard-coded
timedelta(minutes=180). -/
def create_access_token (username password : String) (db : List UserRecord)
    (secret : String) (now : Int) : TokenResponse :=
  match authenticate_user username password db with
  | AuthResult.ok u =>
    TokenResponse.success (create_token u.username u.id u.role secret now (180 * 60)) "Bearer"
  | AuthResult.notFound => TokenResponse.failureString "Failed authentication"
  | AuthResult.badPassword => TokenResponse.failureString "Failed authentication"

/-- The observable outcomes of the page handlers: the redirect produced by
redirect_to_login (302 to /login-page, clearing the cookie), a rendered
template with its context, or a bare None returned by the handler (FastAPI
serializes it as a null body). -/
inductive PageResponse where
  | redirectToLogin
  | todoPage (todos : List TodoRecord) (user : Identity)
  | addTodoPage (user : Identity)
  | editTodoPage (todo : Option TodoRecord) (user : Identity)
  | nullBody
deriving DecidableEq

/-- GET /todo-page: resolves the access_token cookie inside a bare
try/except.  In the except branch the source calls redirect_to_login() but
does not return its result, so the handler returns None. -/
def render_todo_page (cookie : RawToken) (secret : String) (now : Int)
    (db : List TodoRecord) : PageResponse :=
  match get_current_user cookie secret now with
  | Except.error _ => PageResponse.nullBody
  | Except.ok none => PageResponse.redirectToLogin
  | Except.ok (some u) =>
    PageResponse.todoPage (db.filter (fun t => t.owner_id == u.id)) u

/-- GET /add-todo-page: same resolution, but the except branch returns the
redirect. -/
def add_todo_page (cookie : RawToken) (secret : String) (now : Int) :
    PageResponse :=
  match get_current_user cookie secret now with
  | Except.error _ => PageResponse.redirectToLogin
  | Except.ok none => PageResponse.redirectToLogin
  | Except.ok (some u) => PageResponse.addTodoPage u

/-- GET /edit-todo-page/(todo_id): resolves the cookie, then runs
db.query(Todos).filter(Todos.id == todo_id).first() — with no owner
filter — and renders whatever it finds. -/
def edit_todo_page (cookie : RawToken) (secret : String) (now : Int)
    (db : List TodoRecord) (todo_id : Int) : PageResponse :=
  match get_current_user cookie secret now with
  | Except.error _ => PageResponse.redirectToLogin
  | Except.ok none => PageResponse.redirectToLogin
  | Except.ok (some u) =>
    PageResponse.editTodoPage (db.find? (fun t => t.id == todo_id)) u

/-! ## Helper lemmas -/

/-- The resolver signals the 401 error exactly when jwt.decode errors. -/
lemma get_current_user_error_iff (t : Token) (secret : String) (now : Int) :
    (∃ e, get_current_user (RawToken.token t) secret now = Except.error e) ↔
      (∃ err, jwt_decode t secret now = Except.error err) := by
  unfold get_current_user
  cases h : jwt_decode t secret now with
  | error err => simp [h]
  | ok p => cases hs : p.sub <;> cases hi : p.id <;> simp [h, hs, hi]

/-- The amended C3 condition: decoding a real token string fails exactly
when the token is malformed, the signature does not verify against the
shared secret (including a token signed with a different secret), or the
expiry has passed. -/
def invalidCondition (t : Token) (secret : String) (now : Int) : Prop :=
  (∃ raw, t = Token.malformed raw) ∨
  (∃ p sp ss, t = Token.signed p sp ss ∧ ¬(sp = p ∧ ss = secret)) ∨
  (∃ p sp ss e, t = Token.signed p sp ss ∧ p.exp = some e ∧ e < now)

/-- jwt.decode errors exactly under invalidCondition. -/
lemma jwt_decode_error_iff (t : Token) (secret : String) (now : Int) :
    (∃ err, jwt_decode t secret now = Except.error err) ↔
      invalidCondition t secret now := by
  cases t with
  | malformed raw => simp [jwt_decode, invalidCondition]
  | signed p sp ss =>
    by_cases hsig : sp = p ∧ ss = secret
    · obtain ⟨h1, h2⟩ := hsig
      subst h1; subst h2
      cases hexp : sp.exp with
      | none =>
        refine iff_of_false ?_ ?_
        · simp [jwt_decode, hexp]
        · simp [invalidCondition, hexp]
      | some x =>
        by_cases hlt : x < now
        · refine iff_of_true ⟨JwtError.expired, ?_⟩
            (Or.inr (Or.inr ⟨sp, sp, ss, x, rfl, hexp, hlt⟩))
          simp [jwt_decode, hexp, hlt]
        · refine iff_of_false ?_ ?_
          · simp [jwt_decode, hexp, hlt]
          · simp [invalidCondition, hexp, hlt]
    · refine iff_of_true ⟨JwtError.badSignature, ?_⟩
        (Or.inr (Or.inl ⟨p, sp, ss, rfl, hsig⟩))
      simp [jwt_decode, hsig]

/-! ## Concrete records used by the claim witnesses -/

/-- A todo owned by user 1, for the C1 scenario. -/
def c1Todo : TodoRecord := ⟨1, "Test Todo", "Test description", 5, false, 1⟩

/-- A valid token for user bob, id 2, role user, for the C1 scenario. -/
def c1BobToken : Token := create_token "bob" 2 "user" "topsecret" 0 10800

/-- A claim set missing the required "sub" field, for C3. -/
def c3Payload : JwtPayload := ⟨none, some 7, some "user", some 1000⟩

/-- A correctly signed, unexpired token over c3Payload. -/
def c3Tok : Token := jwt_encode c3Payload "s"

/-- The todo of the C4 scenario, owned by user 1. -/
def c4Todo : TodoRecord := ⟨1, "Test Todo", "Test description", 5, false, 1⟩

/-- An admin identity owning c4Todo. -/
def c4Admin : Identity := ⟨"alice", 1, some "admin"⟩

/-- A non-admin identity owning c4Todo. -/
def c4User : Identity := ⟨"alice", 1, some "user"⟩

/-- An admin identity that does not own c4Todo. -/
def c4OtherAdmin : Identity := ⟨"eve", 2, some "admin"⟩

/-- The registered user of the C6 scenario: alice with password secret1. -/
def c6Alice : UserRecord :=
  ⟨1, "alice at example dot com", "alice", "Alice", "Liddell",
   bcrypt_hash "secret1" "salt1", true, "user", "+0"⟩

/-- The registered user of the C9 witness. -/
def c9Alice : UserRecord :=
  ⟨1, "alice at example dot com", "alice", "Alice", "Liddell",
   bcrypt_hash "secret1" "salt1", true, "user", "+0"⟩

/-! ## Claim theorems -/

/-- C1: the claim states every todo read/edit/delete operation filters its
query by the caller id as owner and answers 404 for a record the caller
does not own.  The edit-todo page violates this: with a valid token for
user id 2, requesting the edit page of todo 1 owned by user 1 returns that
todo rendered in the page, not a 404 and not an owner-filtered miss. -/
theorem edit_todo_page_leaks_foreign_todo :
    c1Todo.owner_id = 1 ∧ (1 : Int) ≠ 2 ∧
    get_current_user (RawToken.token c1BobToken) "topsecret" 100
      = Except.ok (some ⟨"bob", 2, some "user"⟩) ∧
    edit_todo_page (RawToken.token c1BobToken) "topsecret" 100 [c1Todo] 1
      = PageResponse.editTodoPage (some c1Todo) ⟨"bob", 2, some "user"⟩ :=
  ⟨rfl, by decide, rfl, rfl⟩

/-- C2: decoding the token produced by create_token with the same secret,
at any time before issuance + ttl, yields back exactly the identity fields
of the original claim. -/
theorem token_roundtrip (username : String) (uid : Int) (role secret : String)
    (now ttl t : Int) (_httl : 0 < ttl) (ht : t < now + ttl) :
    get_current_user (RawToken.token (create_token username uid role secret now ttl)) secret t
      = Except.ok (some ⟨username, uid, some role⟩) := by
  have hexp : ¬ (now + ttl < t) := by omega
  simp [get_current_user, create_token, jwt_encode, jwt_decode, hexp]

/-- Witness for C2 at a concrete claim, secret, and time. -/
theorem token_roundtrip_witness :
    (0 : Int) < 10800 ∧ (100 : Int) < 0 + 10800 ∧
    get_current_user (RawToken.token (create_token "alice" 1 "user" "s" 0 10800)) "s" 100
      = Except.ok (some ⟨"alice", 1, some "user"⟩) :=
  ⟨by norm_num, by norm_num,
   token_roundtrip "alice" 1 "user" "s" 0 10800 100 (by norm_num) (by norm_num)⟩

/-- C3 counterexample: a correctly signed, unexpired token whose claim set
lacks the required "sub" field resolves to Anonymous (Python None), not to
Invalid (the 401 error), contradicting the claim that a missing required
field signals Invalid. -/
theorem resolver_missing_sub_not_invalid :
    c3Payload.sub = none ∧
    get_current_user (RawToken.token c3Tok) "s" 0 = Except.ok none :=
  ⟨rfl, rfl⟩

/-- C3 amended: decoding signals Invalid exactly when the token is
malformed, the signature does not verify against the shared secret
(including tokens signed with a different secret), or the expiry has
passed; a verified, unexpired token missing subject or user id yields
Anonymous, not Invalid. -/
theorem resolver_invalid_iff :
    (∀ (t : Token) (secret : String) (now : Int),
      (∃ e, get_current_user (RawToken.token t) secret now = Except.error e) ↔
        invalidCondition t secret now) ∧
    (∀ (p : JwtPayload) (secret : String) (now : Int),
      jwt_decode (jwt_encode p secret) secret now = Except.ok p →
      (p.sub = none ∨ p.id = none) →
      get_current_user (RawToken.token (jwt_encode p secret)) secret now
        = Except.ok none) := by
  constructor
  · intro t secret now
    exact (get_current_user_error_iff t secret now).trans (jwt_decode_error_iff t secret now)
  · intro p secret now hdec hmiss
    simp only [get_current_user, hdec]
    rcases hmiss with h | h
    · simp [h]
    · cases hs : p.sub <;> simp [h, hs]

/-- Witness for C3 amended: a verified token missing "sub" resolves to
Anonymous. -/
theorem resolver_invalid_iff_witness :
    get_current_user (RawToken.token (jwt_encode ⟨none, some 7, some "user", none⟩ "s")) "s" 0
      = Except.ok none :=
  resolver_invalid_iff.2 ⟨none, some 7, some "user", none⟩ "s" 0 rfl (Or.inl rfl)

/-- C4: delete-todo evaluates Authenticated, then Role admin, then the
owner-filtered query: anonymous gets 401; an authenticated non-admin gets
403 whatever the store holds (even owning the record); an admin not
matching the owner-filtered query gets 404; a delete by an admin owner runs
the owner-filtered deletion. -/
theorem delete_todo_check_order :
    (∀ (db : List TodoRecord) (id : Int),
      delete_todo none db id = Except.error ⟨401, "Authentication failed"⟩) ∧
    (∀ (u : Identity) (db : List TodoRecord) (id : Int),
      u.user_role ≠ some "admin" →
      delete_todo (some u) db id = Except.error ⟨403, "Uh-uh"⟩) ∧
    (∀ (u : Identity) (db : List TodoRecord) (id : Int),
      u.user_role = some "admin" → queryTodoOwned db id u.id = none →
      delete_todo (some u) db id = Except.error ⟨404, "Todo Not Found"⟩) ∧
    (∀ (u : Identity) (db : List TodoRecord) (id : Int) (t0 : TodoRecord),
      u.user_role = some "admin" → queryTodoOwned db id u.id = some t0 →
      delete_todo (some u) db id =
        Except.ok (db.filter (fun t => !(t.id == id && t.owner_id == u.id)))) := by
  refine ⟨fun db id => rfl, ?_, ?_, ?_⟩
  · intro u db id h
    simp [delete_todo, h]
  · intro u db id hrole hq
    simp [delete_todo, hrole, hq]
  · intro u db id t0 hrole hq
    simp [delete_todo, hrole, hq]

/-- Witness for C4: all four outcomes at a concrete store holding one todo
owned by user 1. -/
theorem delete_todo_check_order_witness :
    delete_todo none [c4Todo] 1 = Except.error ⟨401, "Authentication failed"⟩ ∧
    delete_todo (some c4User) [c4Todo] 1 = Except.error ⟨403, "Uh-uh"⟩ ∧
    delete_todo (some c4OtherAdmin) [c4Todo] 1 = Except.error ⟨404, "Todo Not Found"⟩ ∧
    delete_todo (some c4Admin) [c4Todo] 1 =
      Except.ok (List.filter (fun t => !(t.id == 1 && t.owner_id == c4Admin.id)) [c4Todo]) :=
  ⟨delete_todo_check_order.1 [c4Todo] 1,
   delete_todo_check_order.2.1 c4User [c4Todo] 1 (by decide),
   delete_todo_check_order.2.2.1 c4OtherAdmin [c4Todo] 1 rfl rfl,
   delete_todo_check_order.2.2.2 c4Admin [c4Todo] 1 c4Todo rfl rfl⟩

/-- C5: the identity resolver applied to an absent token and to the
literal placeholder "undefined" yields Anonymous (Python None) in both
cases, never the 401 Invalid error. -/
theorem resolver_anonymous_on_absent_and_undefined (secret : String) (now : Int) :
    get_current_user RawToken.absent secret now = Except.ok none ∧
    get_current_user RawToken.undefinedStr secret now = Except.ok none :=
  ⟨rfl, rfl⟩

/-- C6: authenticate_user returns NotFound when no record has the
username, BadPassword when the record exists but verification fails, and
the record itself otherwise; the three outcomes are distinct values. -/
theorem authenticate_user_cases :
    AuthResult.notFound ≠ AuthResult.badPassword ∧
    (∀ (u : UserRecord), AuthResult.notFound ≠ AuthResult.ok u) ∧
    (∀ (u : UserRecord), AuthResult.badPassword ≠ AuthResult.ok u) ∧
    (∀ (username password : String) (db : List UserRecord),
      db.find? (fun u => u.username == username) = none →
      authenticate_user username password db = AuthResult.notFound) ∧
    (∀ (username password : String) (db : List UserRecord) (u : UserRecord),
      db.find? (fun v => v.username == username) = some u →
      bcrypt_verify password u.password = false →
      authenticate_user username password db = AuthResult.badPassword) ∧
    (∀ (username password : String) (db : List UserRecord) (u : UserRecord),
      db.find? (fun v => v.username == username) = some u →
      bcrypt_verify password u.password = true →
      authenticate_user username password db = AuthResult.ok u) := by
  refine ⟨fun h => AuthResult.noConfusion h,
          fun u h => AuthResult.noConfusion h,
          fun u h => AuthResult.noConfusion h, ?_, ?_, ?_⟩
  · intro username password db h
    simp [authenticate_user, h]
  · intro username password db u h hv
    simp [authenticate_user, h, hv]
  · intro username password db u h hv
    simp [authenticate_user, h, hv]

/-- Witness for C6: the spec scenario with registered user alice and
password secret1. -/
theorem authenticate_user_cases_witness :
    authenticate_user "alice" "secret1" [c6Alice] = AuthResult.ok c6Alice ∧
    authenticate_user "alice" "wrong" [c6Alice] = AuthResult.badPassword ∧
    authenticate_user "bob" "x" [c6Alice] = AuthResult.notFound :=
  ⟨authenticate_user_cases.2.2.2.2.2 "alice" "secret1" [c6Alice] c6Alice rfl rfl,
   authenticate_user_cases.2.2.2.2.1 "alice" "wrong" [c6Alice] c6Alice rfl rfl,
   authenticate_user_cases.2.2.2.1 "bob" "x" [c6Alice] rfl⟩

/-- C7: the claim states every page-rendering path degrades to a redirect
to the login page on any identity-resolution failure.  The todo page
violates this on an invalid token: its except branch builds the redirect
but does not return it, so the handler returns a null body, while the
add-todo and edit-todo pages do return the redirect, and an absent or
placeholder cookie also redirects. -/
theorem todo_page_null_on_invalid_token :
    render_todo_page (RawToken.token (Token.malformed "garbage")) "s" 0 []
      = PageResponse.nullBody ∧
    add_todo_page (RawToken.token (Token.malformed "garbage")) "s" 0
      = PageResponse.redirectToLogin ∧
    edit_todo_page (RawToken.token (Token.malformed "garbage")) "s" 0 [] 1
      = PageResponse.redirectToLogin ∧
    render_todo_page RawToken.absent "s" 0 [] = PageResponse.redirectToLogin ∧
    render_todo_page RawToken.undefinedStr "s" 0 [] = PageResponse.redirectToLogin :=
  ⟨rfl, rfl, rfl, rfl, rfl⟩

/-- C8: verify of the credential hasher returns false on every malformed
stored digest, for every plaintext, rather than raising: the function is
total into Bool and its malformed branch is the constant false. -/
theorem verify_malformed_digest_false (plaintext raw : String) :
    bcrypt_verify plaintext (Digest.malformed raw) = false :=
  rfl

/-- C9: POST /token on successful credential exchange returns the dict
with the signed token and token_type Bearer, the expiry being now plus the
hard-coded 180 minutes whatever the request held; on authentication
failure (unknown user or bad password alike) it returns the plain string
Failed authentication. -/
theorem create_access_token_spec :
    (∀ (username password : String) (db : List UserRecord) (secret : String)
       (now : Int) (u : UserRecord),
      authenticate_user username password db = AuthResult.ok u →
      create_access_token username password db secret now =
        TokenResponse.success
          (Token.signed ⟨some u.username, some u.id, some u.role, some (now + 180 * 60)⟩
            ⟨some u.username, some u.id, some u.role, some (now + 180 * 60)⟩ secret)
          "Bearer") ∧
    (∀ (username password : String) (db : List UserRecord) (secret : String) (now : Int),
      (authenticate_user username password db = AuthResult.notFound ∨
       authenticate_user username password db = AuthResult.badPassword) →
      create_access_token username password db secret now =
        TokenResponse.failureString "Failed authentication") := by
  constructor
  · intro username password db secret now u h
    simp [create_access_token, h, create_token, jwt_encode]
  · intro username password db secret now h
    rcases h with h | h <;> simp [create_access_token, h]

/-- Witness for C9: success for alice with the 180-minute expiry, plain
failure string for an unknown user. -/
theorem create_access_token_spec_witness :
    create_access_token "alice" "secret1" [c9Alice] "s" 0 =
      TokenResponse.success
        (Token.signed ⟨some "alice", some 1, some "user", some (0 + 180 * 60)⟩
          ⟨some "alice", some 1, some "user", some (0 + 180 * 60)⟩ "s") "Bearer" ∧
    create_access_token "bob" "x" [c9Alice] "s" 0 =
      TokenResponse.failureString "Failed authentication" :=
  ⟨create_access_token_spec.1 "alice" "secret1" [c9Alice] "s" 0 c9Alice rfl,
   create_access_token_spec.2 "bob" "x" [c9Alice] "s" 0 (Or.inl rfl)⟩

/-- C10: every todo created by an authenticated caller carries the
resolved id of the caller as its owner reference, whatever the request body
(which has no owner field) contains. -/
theorem create_todo_owner_is_caller (u : Identity) (db : List TodoRecord)
    (newId : Int) (req : TodoRequest) :
    create_todo (some u) db newId req =
      Except.ok (db ++ [⟨newId, req.title, req.description, req.priority,
        req.complete, u.id⟩]) :=
  rfl

end FastapiTodo
